import Mathlib

/-!
# Recommendation Normalization & Report-Mode Engine — verification development

A shallow embedding of the client logic of the invest-ease repository
(`src/pages/RecommendationPage.tsx` and `src/pages/OptionalDetailsPage.tsx`),
together with theorems settling the specification's claims about it.

JavaScript runtime values are modelled by the inductive `JSVal`; JavaScript
numbers by `JSNum` (a rational together with the NaN and signed-infinity
points; binary floating-point rounding plays no role in any of the code
under study, which only moves values around and compares them). Built-in
coercions (`ToNumber`, `ToString`, truthiness, `??`, property access) are
modelled by explicit functions below, restricted to the value forms that
actually occur in this code base (plain JSON data: no getters, no `valueOf`
overrides, no hexadecimal/octal/binary numeric literals).
-/

/-- A JavaScript number: NaN, a signed infinity, or a finite value
(modelled as a rational). -/
inductive JSNum where
  | nan : JSNum
  | inf (neg : Bool) : JSNum
  | fin (q : ℚ) : JSNum
deriving DecidableEq

/-- A JavaScript runtime value as it occurs in this code base:
`undefined`, `null`, booleans, numbers, strings, arrays and plain objects. -/
inductive JSVal where
  | undef : JSVal
  | null : JSVal
  | bool (b : Bool) : JSVal
  | num (n : JSNum) : JSVal
  | str (s : String) : JSVal
  | arr (elems : List JSVal) : JSVal
  | obj (fields : List (String × JSVal)) : JSVal

/-- Property access `v[key]` (also `v?.key` on a non-nullish `v`): on an
object, the value of the last binding of `key` (later bindings overwrite
earlier ones, as in JavaScript object construction and `JSON.parse`);
`undefined` on anything else or when the key is absent. -/
def getProp (v : JSVal) (key : String) : JSVal :=
  match v with
  | .obj fields =>
      (fields.foldl (fun acc kv => if kv.1 == key then some kv.2 else acc) none).getD JSVal.undef
  | _ => JSVal.undef

/-- The nullish-coalescing operator `a ?? b`. -/
def nullishCoalesce (a b : JSVal) : JSVal :=
  match a with
  | .undef => b
  | .null => b
  | _ => a

/-- JavaScript truthiness (`Boolean(v)`, the test an `if` performs). -/
def truthy : JSVal → Bool
  | .undef => false
  | .null => false
  | .bool b => b
  | .num .nan => false
  | .num (.inf _) => true
  | .num (.fin q) => q != 0
  | .str s => s != ""
  | .arr _ => true
  | .obj _ => true

/-- The strict-equality test `v === 'lit'` against a string literal. -/
def strictEqStr (v : JSVal) (lit : String) : Bool :=
  match v with
  | .str s => s == lit
  | _ => false

/-- The strict-equality test `v === undefined`. -/
def isUndef : JSVal → Bool
  | .undef => true
  | _ => false

/-- The strict-equality test `v === null`. -/
def isNull : JSVal → Bool
  | .null => true
  | _ => false


/-- The whitespace characters relevant to `String.prototype.trim` in this
code base (ASCII whitespace). -/
def isJsSpace (c : Char) : Bool :=
  c == ' ' || c == '\t' || c == '\n' || c == '\r' || c == '\x0b' || c == '\x0c'

/-- `s.trim()` as a character list. -/
def trimJs (s : String) : List Char :=
  ((s.toList.dropWhile isJsSpace).reverse.dropWhile isJsSpace).reverse

/-- Strip one optional leading sign, returning whether it was `-`. -/
def splitSign : List Char → Bool × List Char
  | '-' :: rest => (true, rest)
  | '+' :: rest => (false, rest)
  | cs => (false, cs)

/-- Split a character list on a separator character; always returns at
least one (possibly empty) group. -/
def splitOnChar (sep : Char) : List Char → List (List Char)
  | [] => [[]]
  | c :: rest =>
    let groups := splitOnChar sep rest
    if c == sep then [] :: groups
    else
      match groups with
      | g :: gs => (c :: g) :: gs
      | [] => [[c]]

/-- All characters are decimal digits (vacuously true of the empty list). -/
def isDigits (cs : List Char) : Bool := cs.all Char.isDigit

/-- The natural number denoted by a list of decimal digits (`0` for the
empty list). -/
def digitsToNat (cs : List Char) : ℕ :=
  cs.foldl (fun a c => a * 10 + (c.toNat - 48)) 0

/-- Parse an unsigned decimal mantissa (`digits`, `digits.digits`,
`digits.` or `.digits`) as a rational. -/
def parseMantissa (cs : List Char) : Option ℚ :=
  match splitOnChar '.' cs with
  | [a] => if !a.isEmpty && isDigits a then some (digitsToNat a : ℚ) else none
  | [a, b] =>
      if (!a.isEmpty || !b.isEmpty) && isDigits a && isDigits b then
        some ((digitsToNat a : ℚ) + (digitsToNat b : ℚ) / (10 : ℚ) ^ b.length)
      else none
  | _ => none

/-- Parse an optionally signed decimal-integer exponent. -/
def parseSignedExponent (cs : List Char) : Option ℤ :=
  let (neg, t) := splitSign cs
  if !t.isEmpty && isDigits t then
    some (if neg then -(digitsToNat t : ℤ) else (digitsToNat t : ℤ))
  else none

/-- Parse an unsigned decimal literal with an optional `e`/`E` exponent
part. -/
def parseDecimalLiteral (cs : List Char) : Option ℚ :=
  let t := cs.map (fun c => if c == 'E' then 'e' else c)
  match splitOnChar 'e' t with
  | [m] => parseMantissa m
  | [m, ex] =>
      match parseMantissa m, parseSignedExponent ex with
      | some q, some e => some (q * (10 : ℚ) ^ e)
      | _, _ => none
  | _ => none

/-- Model of ECMAScript `StringToNumber` (the string case of `Number(v)`):
whitespace-only strings denote `0`; an optional sign precedes either the
literal `Infinity` or a decimal literal with optional exponent; anything
else denotes NaN. (Hexadecimal/octal/binary literals and non-ASCII
whitespace are not modelled; they never occur in this code base.) -/
def jsStringToNumber (s : String) : JSNum :=
  let t := trimJs s
  if t.isEmpty then .fin 0
  else
    let (neg, body) := splitSign t
    if body == "Infinity".toList then .inf neg
    else
      match parseDecimalLiteral body with
      | some q => .fin (if neg then -q else q)
      | none => .nan

/-- Decimal digits of the fractional part `rem / den` (with `rem < den`),
most-significant first, stopping at zero or after `fuel` digits. -/
def fracDigitsOfRem : ℕ → ℕ → ℕ → List Char
  | 0, _, _ => []
  | fuel + 1, rem, den =>
    if rem = 0 then []
    else Nat.digitChar (rem * 10 / den) :: fracDigitsOfRem fuel (rem * 10 % den) den

/-- Model of `String(n)` / `Number.prototype.toString` for a JavaScript
number. On finite values it prints the sign, the integer part and up to 20
fractional digits; it agrees with JavaScript on every value this code base
ever prints (integers and short terminating decimals — JavaScript's
shortest-round-trip digit selection is not reproduced beyond that). -/
def jsNumToString : JSNum → String
  | .nan => "NaN"
  | .inf neg => if neg then "-Infinity" else "Infinity"
  | .fin q =>
    let n := q.num.natAbs
    let frac := fracDigitsOfRem 20 (n % q.den) q.den
    (if q.num < 0 then "-" else "") ++ Nat.repr (n / q.den) ++
      (if frac.isEmpty then "" else "." ++ String.mk frac)

mutual

/-- Model of JavaScript `String(v)` / template-literal interpolation:
strings stay themselves, numbers print via `jsNumToString`, arrays join
their elements with `,` (nullish elements printing as the empty string, as
`Array.prototype.join` does), plain objects print as `[object Object]`. -/
def jsValToString : JSVal → String
  | .undef => "undefined"
  | .null => "null"
  | .bool b => if b then "true" else "false"
  | .num n => jsNumToString n
  | .str s => s
  | .arr elems => String.intercalate "," (jsArrElemStrings elems)
  | .obj _ => "[object Object]"

/-- Element strings for `Array.prototype.join`: `undefined` and `null`
become empty strings, everything else goes through `jsValToString`. -/
def jsArrElemStrings : List JSVal → List String
  | [] => []
  | .undef :: rest => "" :: jsArrElemStrings rest
  | .null :: rest => "" :: jsArrElemStrings rest
  | v :: rest => jsValToString v :: jsArrElemStrings rest

end

/-- Model of `Number(v)` (ECMAScript `ToNumber`) on the values this code
base feeds it: `undefined` is NaN, `null` and `false` are `0`, `true` is
`1`, numbers stay themselves, strings parse via `jsStringToNumber`, and
arrays/objects coerce through their `jsValToString` rendering (the
`ToPrimitive`-then-`StringToNumber` path for plain JSON data). -/
def jsToNumber : JSVal → JSNum
  | .undef => .nan
  | .null => .fin 0
  | .bool b => .fin (if b then 1 else 0)
  | .num n => n
  | .str s => jsStringToNumber s
  | .arr elems => jsStringToNumber (jsValToString (.arr elems))
  | .obj fields => jsStringToNumber (jsValToString (.obj fields))

/-! ## Report preference (OptionalDetailsPage.tsx / RecommendationPage.tsx) -/

/-- The TypeScript union `'full' | 'single'` of `ReportPreference.reportType`. -/
inductive ReportMode where
  | full : ReportMode
  | single : ReportMode
deriving DecidableEq

/-- The `ReportPreference` record of both pages. `investmentType` is kept
as a raw runtime value because the persisted JSON is untyped: the loader
only guarantees a truthy value or `''`. -/
structure ReportPreference where
  reportType : ReportMode
  investmentType : JSVal

/-- The default preference `{reportType: 'full', investmentType: ''}` both
pages initialise their state with. -/
def defaultReportPreference : ReportPreference := ⟨.full, .str ""⟩

/-- The preference-loading effect shared by `RecommendationPage.tsx`
(lines 55–72) and `OptionalDetailsPage.tsx` (lines 35–48). The persisted
`reportPreference` storage slot is modelled by the outcome of reading and
`JSON.parse`-ing it: `none` when the key is absent, `some (.error ())`
when parsing throws, `some (.ok v)` when it yields the value `v`. Absent
and unparseable slots leave the default state; a parsed value is
normalized field by field (`parsed.reportType === 'single' ? 'single' :
'full'` and `parsed.investmentType || ''`). -/
def loadReportPreference (stored : Option (Except Unit JSVal)) : ReportPreference :=
  match stored with
  | none => defaultReportPreference
  | some (.error _) => defaultReportPreference
  | some (.ok parsed) =>
      { reportType := if strictEqStr (getProp parsed "reportType") "single" then .single else .full
        investmentType :=
          if truthy (getProp parsed "investmentType") then getProp parsed "investmentType"
          else .str "" }

/-- `validateReportPreference` (OptionalDetailsPage.tsx lines 64–71):
`some message` is the field-level error set through `setReportError`,
`none` means validation passed (the error is cleared). -/
def validateReportPreference (p : ReportPreference) : Option String :=
  if p.reportType = .single && !(truthy p.investmentType) then
    some "Please choose a category for the single-investment report."
  else none

/-- What a successful submit persists and where it navigates. -/
structure SubmitOutcome where
  optionalDetails : JSVal
  persistedPreference : ReportPreference
  navigateTo : String

/-- `handleSubmit` (OptionalDetailsPage.tsx lines 83–92): when validation
fails it returns early — nothing is persisted and no navigation (hence no
recommendation request) happens, modelled by `none`. Otherwise the form
data and the two preference fields are persisted and the flow moves to
`/recommendation`. -/
def handleSubmit (formData : JSVal) (p : ReportPreference) : Option SubmitOutcome :=
  match validateReportPreference p with
  | some _ => none
  | none => some ⟨formData, ⟨p.reportType, p.investmentType⟩, "/recommendation"⟩

/-! ## Request payload (RecommendationPage.tsx lines 74–97) -/

/-- `parseOptionalNumber` (RecommendationPage.tsx lines 74–78): `none`
models returning `undefined` (the field is then dropped from the JSON
payload), `some n` models returning the parsed number. -/
def parseOptionalNumber (value : JSVal) : Option JSNum :=
  if isUndef value || isNull value || strictEqStr value "" then none
  else
    match jsToNumber value with
    | .nan => none
    | n => some n

/-- The `/api/recommend` request body. `Option`-typed fields model keys
whose `undefined` value makes `JSON.stringify` omit them. -/
structure RecommendPayload where
  age : JSNum
  investment_amount : JSNum
  risk_preference : JSVal
  monthly_income : Option JSNum
  savings : Option JSNum
  time_horizon : JSVal
  experience_level : JSVal
  financial_goals : JSVal
  monthly_expenses : Option JSNum
  report_type : ReportMode
  investment_type : Option JSVal

/-- The payload constructed by `fetchRecommendations` (RecommendationPage.tsx
lines 85–97) from the merged details object and the report preference. -/
def buildPayload (details : JSVal) (p : ReportPreference) : RecommendPayload :=
  { age := jsToNumber (nullishCoalesce (getProp details "age")
      (nullishCoalesce (getProp details "userAge") (.num (.fin 30))))
    investment_amount := jsToNumber (nullishCoalesce (getProp details "investmentAmount")
      (nullishCoalesce (getProp details "investment_amount") (.num (.fin 0))))
    risk_preference := nullishCoalesce (getProp details "riskPreference")
      (nullishCoalesce (getProp details "risk_preference") (.str "Medium"))
    monthly_income := parseOptionalNumber (nullishCoalesce (getProp details "monthlyIncome")
      (getProp details "monthly_income"))
    savings := parseOptionalNumber (nullishCoalesce (getProp details "savings")
      (nullishCoalesce (getProp details "totalSavings") (getProp details "netWorth")))
    time_horizon := nullishCoalesce (getProp details "timeHorizon")
      (getProp details "time_horizon")
    experience_level := nullishCoalesce (getProp details "experienceLevel")
      (getProp details "experience_level")
    financial_goals := nullishCoalesce (getProp details "financialGoals")
      (getProp details "financial_goals")
    monthly_expenses := parseOptionalNumber (nullishCoalesce (getProp details "monthlyExpenses")
      (getProp details "monthly_expenses"))
    report_type := p.reportType
    investment_type := if truthy p.investmentType then some p.investmentType else none }

/-! ## Fetch state machine (RecommendationPage.tsx lines 80–128) -/

/-- The five state hooks `fetchRecommendations` touches. `.null` mirrors
the JavaScript `null` initial/reset values of the result and single-report
slots; the error slot is `Option String` for `string | null`. -/
structure RecState where
  recommendationResults : JSVal
  recommendationLoading : Bool
  recommendationError : Option String
  reportMode : ReportMode
  singleReportData : JSVal

/-- The initial state of the page. -/
def initRecState : RecState := ⟨.null, false, none, .full, .null⟩

/-- How one invocation of `fetchRecommendations` ends: the response was ok
and its body parsed to `data`; the response had a non-success HTTP status
(`!response.ok`, which throws `Error('Unable to fetch recommendations')`);
or the fetch/body-parse itself rejected with an error whose `.message` is
modelled by a string (`''` standing for a falsy message). -/
inductive FetchOutcome where
  | success (data : JSVal) : FetchOutcome
  | httpError : FetchOutcome
  | networkError (message : String) : FetchOutcome

/-- The synchronous prefix of `fetchRecommendations`: loading is set
`true` and any previous error is cleared before the request is issued. -/
def fetchStart (s : RecState) : RecState :=
  { s with recommendationLoading := true, recommendationError := none }

/-- The server-precedence rule (line 115): the effective report mode is
`'single'` exactly when the response's `report_type` field is `'single'`. -/
def serverReportType (data : JSVal) : ReportMode :=
  if strictEqStr (getProp data "report_type") "single" then .single else .full

/-- The `try`/`catch`/`finally` tail of `fetchRecommendations` (lines
108–125): on success the results are normalized (`data?.recommendations ??
data`), the report mode follows the server and `single_report` is adopted
(`?? null`); on either failure the error banner is set and every derived
slot is reset to the empty full-mode state. The `finally` block clears the
loading flag on every path. -/
def fetchSettle (s : RecState) : FetchOutcome → RecState
  | .success data =>
      { s with
        recommendationResults := nullishCoalesce (getProp data "recommendations") data
        reportMode := serverReportType data
        singleReportData := nullishCoalesce (getProp data "single_report") .null
        recommendationLoading := false }
  | .httpError =>
      { s with
        recommendationError := some "Unable to fetch recommendations"
        recommendationResults := .null
        reportMode := .full
        singleReportData := .null
        recommendationLoading := false }
  | .networkError message =>
      { s with
        recommendationError :=
          some (if message = "" then "Failed to load recommendations" else message)
        recommendationResults := .null
        reportMode := .full
        singleReportData := .null
        recommendationLoading := false }

/-- One full run of `fetchRecommendations(details, preference)` against a
given outcome. The details and preference shape only the request payload
(`buildPayload`), never how the response is folded into the state. -/
def fetchRecommendationsRun (details : JSVal) (p : ReportPreference) (s : RecState)
    (outcome : FetchOutcome) : RecState :=
  fetchSettle (fetchStart s) outcome

/-! ## Full-mode category resolution (RecommendationPage.tsx lines 195–304) -/

/-- The alias scan inside `getCategoryItems`: try each backend key in
order and return the first value that is a non-empty array. -/
def getCategoryItemsScan (results : JSVal) : List String → List JSVal
  | [] => []
  | key :: keys =>
      match getProp results key with
      | .arr elems => if elems.isEmpty then getCategoryItemsScan results keys else elems
      | _ => getCategoryItemsScan results keys

/-- `getCategoryItems` (lines 195–207): the empty list when no results are
loaded (`!recommendationResults`), otherwise the first non-empty array
bucket among the category's alias keys. -/
def getCategoryItems (results : JSVal) (keys : List String) : List JSVal :=
  if truthy results then getCategoryItemsScan results keys else []

/-- `categoryConfigs` (lines 287–296): canonical category labels with
their ordered backend key aliases. -/
def categoryConfigs : List (String × List String) :=
  [("Equity Funds", ["equity", "equity_funds"]),
   ("Debt Funds", ["debt", "debt_funds"]),
   ("Hybrid Funds", ["hybrid", "hybrid_funds"]),
   ("Gold ETFs", ["gold", "gold_etf", "gold_etfs"]),
   ("Stocks", ["stocks", "equity_stocks"])]

/-- `v` is a non-empty array. -/
def isNonEmptyArray (v : JSVal) : Bool :=
  match v with
  | .arr elems => !elems.isEmpty
  | _ => false

/-- The elements of an array value (`[]` on non-arrays). -/
def arrayItems (v : JSVal) : List JSVal :=
  match v with
  | .arr elems => elems
  | _ => []

/-- Category resolution as the specification words it: scan the alias
list in fixed priority order and take the first alias whose value is a
non-empty array, the empty bucket if no alias matches. -/
def firstNonEmptyAlias (results : JSVal) (keys : List String) : List JSVal :=
  match keys.find? (fun key => isNonEmptyArray (getProp results key)) with
  | some key => arrayItems (getProp results key)
  | none => []

/-! ## Explanation synthesis (RecommendationPage.tsx lines 239–285) -/

/-- The `riskNarratives` record (lines 273–277), as the partial lookup a
JavaScript record subscript performs. -/
def riskNarratives (risk : String) : Option String :=
  if risk = "Low" then some "prioritize stability, capital protection, and steady income."
  else if risk = "Medium" then some "balance long-term growth with reasonable stability."
  else if risk = "High" then some "maximize long-term growth even if short-term volatility increases."
  else none

/-- `buildExplanation` (lines 279–285): a truthy upstream explanation is
returned verbatim; otherwise the synthesized sentence combines the
category label with the narrative for the user's risk preference, falling
back (`??`) to the balanced default clause. -/
def buildExplanation (riskPreference categoryLabel : String) (custom : JSVal) : JSVal :=
  if truthy custom then custom
  else .str (categoryLabel ++ " are selected to " ++
    ((riskNarratives riskPreference).getD "deliver a balanced mix of growth and stability."))

/-- `buildSingleItemExplanation` (lines 239–271): the 5-year return is
preferred over the 3-year return (each read through its two aliases and
tested for truthiness), then one labeled fragment per numeric extra
metric is appended in the fixed source order, and the fragments join with
the bullet separator; an empty fragment list yields `undefined` (`none`). -/
def buildSingleItemExplanation (item : JSVal) : Option String :=
  let extras := if truthy (getProp item "extra_metrics") then getProp item "extra_metrics"
                else .obj []
  let returns5y := nullishCoalesce (getProp item "5y_return") (getProp item "return_5yr")
  let returns3y := nullishCoalesce (getProp item "3y_return") (getProp item "return_3yr")
  let parts : List String :=
    (if truthy returns5y then ["5Y CAGR " ++ jsValToString returns5y ++ "%"]
     else if truthy returns3y then ["3Y CAGR " ++ jsValToString returns3y ++ "%"]
     else [])
    ++ (match getProp extras "yield" with
        | .num n => ["Yield " ++ jsNumToString n ++ "%"]
        | _ => [])
    ++ (match getProp extras "expense_ratio" with
        | .num n => ["Expense Ratio " ++ jsNumToString n ++ "%"]
        | _ => [])
    ++ (match getProp extras "consistency" with
        | .num n => ["Consistency " ++ jsNumToString n ++ "%"]
        | _ => [])
    ++ (match getProp extras "volatility" with
        | .num n => ["Volatility " ++ jsNumToString n ++ "%"]
        | _ => [])
    ++ (match getProp extras "duration" with
        | .num n => ["Duration " ++ jsNumToString n ++ " yrs"]
        | _ => [])
    ++ (match getProp extras "beta" with
        | .num n => ["Beta " ++ jsNumToString n]
        | _ => [])
  if parts.isEmpty then none else some (String.intercalate " • " parts)

/-- The fixed extra-metric order of the single-mode explanation as the
specification states it: key, label, unit suffix. -/
def singleExtraMetricOrder : List (String × String × String) :=
  [("yield", "Yield ", "%"),
   ("expense_ratio", "Expense Ratio ", "%"),
   ("consistency", "Consistency ", "%"),
   ("volatility", "Volatility ", "%"),
   ("duration", "Duration ", " yrs"),
   ("beta", "Beta ", "")]

/-- A labeled fragment for one extra metric, produced only when the
metric's value is numeric. -/
def numericFragment (extras : JSVal) (entry : String × String × String) : Option String :=
  match getProp extras entry.1 with
  | .num n => some (entry.2.1 ++ jsNumToString n ++ entry.2.2)
  | _ => none

/-- The single-item explanation as the specification words it: prefer the
5-year return over the 3-year return, then append in fixed order a
fragment per numeric extra metric, join with the bullet separator, and
leave the explanation undefined when no fragment applies. -/
def singleItemExplanationSpec (item : JSVal) : Option String :=
  let extras := if truthy (getProp item "extra_metrics") then getProp item "extra_metrics"
                else .obj []
  let returns5y := nullishCoalesce (getProp item "5y_return") (getProp item "return_5yr")
  let returns3y := nullishCoalesce (getProp item "3y_return") (getProp item "return_3yr")
  let returnFragment : List String :=
    if truthy returns5y then ["5Y CAGR " ++ jsValToString returns5y ++ "%"]
    else if truthy returns3y then ["3Y CAGR " ++ jsValToString returns3y ++ "%"]
    else []
  let parts := returnFragment ++ singleExtraMetricOrder.filterMap (numericFragment extras)
  if parts.isEmpty then none else some (String.intercalate " • " parts)

/-! ## Single-mode metric formatter (RecommendationPage.tsx lines 226–237) -/

/-- `Math.round`-style half-away-from-zero rounding of `q * 100`, computed
on the reduced numerator/denominator: the hundredths digit grid the
`maximumFractionDigits: 2` option of `toLocaleString` rounds to. -/
def roundHundredths (q : ℚ) : ℤ :=
  let magnitude : ℕ := (2 * (q.num * 100).natAbs + q.den) / (2 * q.den)
  if q.num < 0 then -(magnitude : ℤ) else (magnitude : ℤ)

/-- Up to two fraction digits for a hundredths remainder, with a trailing
zero digit dropped (as `toLocaleString` does): `[]` for `0`, one digit for
multiples of ten, two digits otherwise. -/
def enINFracDigits (hundredths : ℕ) : List Char :=
  if hundredths = 0 then []
  else if hundredths % 10 = 0 then [Nat.digitChar (hundredths / 10)]
  else [Nat.digitChar (hundredths / 10), Nat.digitChar (hundredths % 10)]

/-- Groups of an `en-IN` integer part, working on reversed digits: three
digits first, then pairs. -/
def indianPairs : List Char → List (List Char)
  | [] => []
  | [c] => [[c]]
  | c :: d :: rest => [c, d] :: indianPairs rest

/-- `en-IN` digit grouping of an integer-part digit string:
`1234567 ↦ 12,34,567`. -/
def indianGroup (s : String) : String :=
  let rev := s.toList.reverse
  String.mk (List.intercalate [','] (rev.take 3 :: indianPairs (rev.drop 3))).reverse

/-- Model of `n.toLocaleString('en-IN', { maximumFractionDigits: 2 })`:
NaN and the infinities print as their locale symbols; a finite value is
rounded half-away-from-zero to hundredths, its integer part grouped
Indian-style, and at most two fraction digits appended. -/
def formatEnINMax2 : JSNum → String
  | .nan => "NaN"
  | .inf neg => if neg then "-∞" else "∞"
  | .fin q =>
    let scaled := roundHundredths q
    let magnitude := scaled.natAbs
    let frac := enINFracDigits (magnitude % 100)
    (if scaled < 0 then "-" else "") ++ indianGroup (Nat.repr (magnitude / 100)) ++
      (if frac.isEmpty then "" else "." ++ String.mk frac)

/-- `formatSingleMetricValue` (lines 226–237): `null` and `undefined` are
rendered as `'NA'` before any type dispatch; numbers are locale-formatted;
objects — and arrays, which JavaScript's `typeof` also classifies as
objects, `Object.entries` then enumerating their indices — are flattened
to `key: value` pairs joined by `', '`; every other value is returned
unchanged. -/
def formatSingleMetricValue (value : JSVal) : JSVal :=
  match value with
  | .null => .str "NA"
  | .undef => .str "NA"
  | .num n => .str (formatEnINMax2 n)
  | .obj fields =>
      .str (String.intercalate ", " (fields.map (fun kv => kv.1 ++ ": " ++ jsValToString kv.2)))
  | .arr elems =>
      .str (String.intercalate ", "
        (((List.range elems.length).zip elems).map
          (fun iv => Nat.repr iv.1 ++ ": " ++ jsValToString iv.2)))
  | v => v

/-! ## Concrete inputs used by the claim theorems -/

/-- End-to-end scenario A profile:
`{age: 30, investmentAmount: 50000, riskPreference: 'Medium'}`. -/
def scenarioADetails : JSVal :=
  .obj [("age", .num (.fin 30)), ("investmentAmount", .num (.fin 50000)),
        ("riskPreference", .str "Medium")]

/-- A full-mode response carrying the Gold ETFs bucket under two aliases:
`{gold_etf: [x], gold: [y]}`. -/
def goldAliasResults : JSVal :=
  .obj [("gold_etf", .arr [.str "x"]), ("gold", .arr [.str "y"])]

/-- The alias list of the Gold ETFs entry of `categoryConfigs`. -/
def goldAliasKeys : List String := ["gold", "gold_etf", "gold_etfs"]

/-- A backend response declaring single mode:
`{report_type: 'single', single_report: {category: 'gold'}}`. -/
def singleModeResponse : JSVal :=
  .obj [("report_type", .str "single"), ("single_report", .obj [("category", .str "gold")])]

/-- The rational `1234.56`, a metric value whose locale rendering
exercises grouping and both fraction digits. -/
def sampleMetric : ℚ := ⟨30864, 25, by norm_num, by norm_num⟩

/-! ## Helper lemmas -/

theorem filterMap_cons_toList {α β : Type} (f : α → Option β) (a : α) (as : List α) :
    List.filterMap f (a :: as) = (f a).toList ++ List.filterMap f as := by
  cases h : f a <;> simp [h]

theorem enINFracDigits_length_le_two (hundredths : ℕ) :
    (enINFracDigits hundredths).length ≤ 2 := by
  unfold enINFracDigits
  split_ifs <;> simp

theorem getCategoryItemsScan_eq_firstNonEmptyAlias (results : JSVal) (keys : List String) :
    getCategoryItemsScan results keys = firstNonEmptyAlias results keys := by
  induction keys with
  | nil => rfl
  | cons key keys ih =>
    simp only [getCategoryItemsScan, firstNonEmptyAlias, List.find?_cons]
    cases h : getProp results key with
    | arr elems =>
      cases he : elems.isEmpty with
      | true => simpa [isNonEmptyArray, h, he, firstNonEmptyAlias] using ih
      | false => simp [isNonEmptyArray, h, he, arrayItems]
    | undef => simpa [isNonEmptyArray, h, firstNonEmptyAlias] using ih
    | null => simpa [isNonEmptyArray, h, firstNonEmptyAlias] using ih
    | bool b => simpa [isNonEmptyArray, h, firstNonEmptyAlias] using ih
    | num n => simpa [isNonEmptyArray, h, firstNonEmptyAlias] using ih
    | str s => simpa [isNonEmptyArray, h, firstNonEmptyAlias] using ih
    | obj fields => simpa [isNonEmptyArray, h, firstNonEmptyAlias] using ih

/-! ## Claim theorems -/

/-- Claim C1, counterexample. The claim asserts that for the response
`{gold_etf: [x], gold: [y]}` the resolved Gold ETFs bucket is `[x]`; on
the code it is `[y]`, because the alias list of `categoryConfigs` orders
`gold` before `gold_etf`, and the scan takes the first alias whose value
is a non-empty array. -/
theorem getCategoryItems_gold_example_counterexample :
    getCategoryItems goldAliasResults goldAliasKeys = [JSVal.str "y"] ∧
    getCategoryItems goldAliasResults goldAliasKeys ≠ [JSVal.str "x"] := by
  constructor
  · rfl
  · simp [getCategoryItems, getCategoryItemsScan, getProp, truthy,
      goldAliasResults, goldAliasKeys]

/-- Claim C1, amended. Full-mode category resolution scans the alias list
in fixed priority order and returns the bucket of the first alias whose
value is a non-empty array — the empty list when no alias matches or no
results are loaded; for `{gold_etf: [x], gold: [y]}` the Gold ETFs bucket
is therefore `[y]`, the value of the first listed alias `gold`, not the
value of the first object key. -/
theorem getCategoryItems_resolves_first_nonempty_alias (results : JSVal) (keys : List String) :
    getCategoryItems results keys =
      (if truthy results then firstNonEmptyAlias results keys else []) ∧
    ("Gold ETFs", goldAliasKeys) ∈ categoryConfigs ∧
    getCategoryItems goldAliasResults goldAliasKeys = [JSVal.str "y"] := by
  refine ⟨?_, by simp [categoryConfigs, goldAliasKeys], rfl⟩
  unfold getCategoryItems
  cases truthy results <;> simp [getCategoryItemsScan_eq_firstNonEmptyAlias]

/-- Claim C2. For every successful fetch the rendered report mode comes
from the response field `report_type` — `single` exactly when that field
is the string `single`, otherwise `full` — independently of the locally
stored preference; in particular a `report_type: 'single'` response
received under a local Full preference renders single mode. -/
theorem reportMode_follows_server_report_type (details : JSVal) (p p' : ReportPreference)
    (s : RecState) (data : JSVal) :
    (fetchRecommendationsRun details p s (.success data)).reportMode =
      (if strictEqStr (getProp data "report_type") "single" then .single else .full) ∧
    fetchRecommendationsRun details p s (.success data) =
      fetchRecommendationsRun details p' s (.success data) ∧
    (fetchRecommendationsRun details defaultReportPreference initRecState
        (.success singleModeResponse)).reportMode = .single ∧
    (fetchRecommendationsRun details defaultReportPreference initRecState
        (.success singleModeResponse)).singleReportData = .obj [("category", .str "gold")] :=
  ⟨rfl, rfl, rfl, rfl⟩

/-- Claim C3. `fetchRecommendations` raises the loading flag at the start
of every run and the `finally` step clears it on every outcome; a
non-success HTTP status or a network failure sets an error message and
resets the derived state to the empty full-mode shape: results `null`,
report mode `full`, single-report data `null`. -/
theorem fetch_failure_resets_state_and_clears_loading (details : JSVal)
    (p : ReportPreference) (s : RecState) (o : FetchOutcome) (m : String) :
    (fetchStart s).recommendationLoading = true ∧
    (fetchRecommendationsRun details p s o).recommendationLoading = false ∧
    fetchRecommendationsRun details p s .httpError =
      ⟨.null, false, some "Unable to fetch recommendations", .full, .null⟩ ∧
    fetchRecommendationsRun details p s (.networkError m) =
      ⟨.null, false, some (if m = "" then "Failed to load recommendations" else m),
        .full, .null⟩ := by
  refine ⟨rfl, ?_, rfl, rfl⟩
  cases o <;> rfl

/-- Claim C4, counterexample. The claim asserts that every string failing
to parse to a finite number maps to absent; the string `Infinity` has the
non-finite numeric value `Infinity`, yet `parseOptionalNumber` returns it
(the code only rejects NaN, it never checks finiteness). -/
theorem parseOptionalNumber_infinity_counterexample :
    jsToNumber (.str "Infinity") = .inf false ∧
    parseOptionalNumber (.str "Infinity") = some (.inf false) := by
  exact ⟨by decide, by decide⟩

/-- Claim C4, amended. `parseOptionalNumber` is total; the empty string,
`null` and `undefined` map to absent; a non-empty string maps to absent
exactly when its numeric value is NaN (strings denoting an infinity are
returned as that infinity, not treated as absent); and the string `0`
maps to the number `0`, not to absent. -/
theorem parseOptionalNumber_absent_iff_nan :
    parseOptionalNumber .undef = none ∧
    parseOptionalNumber .null = none ∧
    parseOptionalNumber (.str "") = none ∧
    (∀ s : String,
      parseOptionalNumber (.str s) = none ↔ (s = "" ∨ jsStringToNumber s = .nan)) ∧
    parseOptionalNumber (.str "0") = some (.fin 0) := by
  refine ⟨rfl, rfl, rfl, ?_, by decide⟩
  intro s
  unfold parseOptionalNumber
  by_cases hs : s = ""
  · subst hs; simp [isUndef, isNull, strictEqStr]
  · simp only [isUndef, isNull, strictEqStr, Bool.false_or, beq_iff_eq, hs, if_false]
    simp only [jsToNumber]
    cases h : jsStringToNumber s <;> simp [h, hs]

/-- Claim C5, counterexample. The claim asserts the `investment_type` key
is omitted whenever the preference report type is not Single; but for the
reachable preference `{reportType: 'full', investmentType: 'gold'}` (set
single, pick gold, switch back to full) the payload carries
`investment_type: 'gold'` — omission is decided by the truthiness of
`investmentType` alone, not by the report type. -/
theorem payload_investment_type_full_mode_counterexample :
    (⟨.full, .str "gold"⟩ : ReportPreference).reportType ≠ .single ∧
    (buildPayload (.obj []) ⟨.full, .str "gold"⟩).investment_type = some (.str "gold") := by
  exact ⟨by decide, rfl⟩

/-- Claim C5, amended. The payload carries `report_type` and
`investment_type` through verbatim, with the `investment_type` key
omitted exactly when the stored `investmentType` is falsy (so it is never
sent as an empty string, but it is sent whenever non-empty, whatever the
report type); in particular scenario A — profile `{age: 30,
investmentAmount: 50000, riskPreference: 'Medium'}` with the default Full
preference — yields `report_type: 'full'` and no `investment_type` key. -/
theorem payload_report_fields_follow_preference (details : JSVal) (p : ReportPreference) :
    (buildPayload details p).report_type = p.reportType ∧
    (buildPayload details p).investment_type =
      (if truthy p.investmentType then some p.investmentType else none) ∧
    buildPayload scenarioADetails defaultReportPreference =
      ⟨.fin 30, .fin 50000, .str "Medium", none, none, .undef, .undef, .undef, none,
        .full, none⟩ :=
  ⟨rfl, rfl, rfl⟩

/-- Claim C6, counterexample. The claim asserts every malformed persisted
preference — including one whose `reportType` is unrecognized — loads as
the default `{reportType: 'full', investmentType: ''}`; but the stored
JSON `{"reportType": "fullish", "investmentType": "gold"}` loads as
`{reportType: 'full', investmentType: 'gold'}`: the fields are normalized
one by one, and the truthy `investmentType` survives. -/
theorem loadReportPreference_counterexample :
    loadReportPreference
        (some (.ok (.obj [("reportType", .str "fullish"), ("investmentType", .str "gold")]))) =
      ⟨.full, .str "gold"⟩ ∧
    (⟨.full, .str "gold"⟩ : ReportPreference) ≠ defaultReportPreference := by
  refine ⟨rfl, ?_⟩
  simp [defaultReportPreference]

/-- Claim C6, amended. Loading the persisted preference never throws and
never surfaces an error: an absent slot and unparseable JSON both yield
the default `{reportType: 'full', investmentType: ''}`, and any parsed
value is normalized field by field — the report type falls back to
`full` unless the stored field is exactly the string `single`, and the
investment type falls back to the empty string unless the stored field is
truthy (so a parsed record with an unrecognized report type can still
retain its investment type, as `{fullish, gold} ↦ {full, gold}` shows). -/
theorem loadReportPreference_fails_soft_per_field :
    loadReportPreference none = defaultReportPreference ∧
    (∀ e : Unit, loadReportPreference (some (.error e)) = defaultReportPreference) ∧
    (∀ parsed : JSVal,
      loadReportPreference (some (.ok parsed)) =
        ⟨if strictEqStr (getProp parsed "reportType") "single" then .single else .full,
         if truthy (getProp parsed "investmentType") then getProp parsed "investmentType"
         else .str ""⟩) ∧
    loadReportPreference
        (some (.ok (.obj [("reportType", .str "single"), ("investmentType", .str "gold")]))) =
      ⟨.single, .str "gold"⟩ ∧
    loadReportPreference
        (some (.ok (.obj [("reportType", .str "fullish"), ("investmentType", .str "gold")]))) =
      ⟨.full, .str "gold"⟩ :=
  ⟨rfl, fun _ => rfl, fun _ => rfl, rfl, rfl⟩

/-- Claim C7. Preference validation fails, with the field-level message,
exactly when the report type is `single` and the investment type is
empty; `{single, ''}` fails and blocks submission (nothing is persisted,
no navigation and hence no request happens), `{single, 'gold'}` passes,
and `{full, x}` passes for every `x`. -/
theorem validateReportPreference_single_gate :
    validateReportPreference ⟨.single, .str ""⟩ =
      some "Please choose a category for the single-investment report." ∧
    validateReportPreference ⟨.single, .str "gold"⟩ = none ∧
    (∀ x : JSVal, validateReportPreference ⟨.full, x⟩ = none) ∧
    (∀ formData : JSVal, handleSubmit formData ⟨.single, .str ""⟩ = none) ∧
    (∀ (formData : JSVal) (p : ReportPreference),
      handleSubmit formData p = none ↔
        (p.reportType = .single ∧ truthy p.investmentType = false)) := by
  refine ⟨rfl, rfl, ?_, fun _ => rfl, ?_⟩
  · intro x; simp [validateReportPreference]
  · intro formData p
    obtain ⟨rt, it⟩ := p
    cases rt <;> cases h : truthy it <;>
      simp [handleSubmit, validateReportPreference, h]

/-- Claim C8. With no upstream explanation the synthesized sentence is
exactly the category label followed by `are selected to` and the clause
for the risk preference — one of the three fixed narratives for Low,
Medium and High, or the fixed default clause for any other risk value; as
a function it is deterministic, its output begins with the literal
category label, and the Low / Gold ETFs instance is the expected
sentence. -/
theorem buildExplanation_risk_sentence (risk label : String) :
    buildExplanation risk label .undef =
      .str (label ++ " are selected to " ++
        ((riskNarratives risk).getD "deliver a balanced mix of growth and stability.")) ∧
    ((riskNarratives risk).getD "deliver a balanced mix of growth and stability." =
        "prioritize stability, capital protection, and steady income." ∨
      (riskNarratives risk).getD "deliver a balanced mix of growth and stability." =
        "balance long-term growth with reasonable stability." ∨
      (riskNarratives risk).getD "deliver a balanced mix of growth and stability." =
        "maximize long-term growth even if short-term volatility increases." ∨
      (riskNarratives risk).getD "deliver a balanced mix of growth and stability." =
        "deliver a balanced mix of growth and stability.") ∧
    (∃ tail : String, buildExplanation risk label .undef = .str (label ++ tail)) ∧
    buildExplanation "Low" "Gold ETFs" .undef =
      .str "Gold ETFs are selected to prioritize stability, capital protection, and steady income." := by
  have h1 : buildExplanation risk label .undef =
      .str (label ++ " are selected to " ++
        ((riskNarratives risk).getD "deliver a balanced mix of growth and stability.")) := rfl
  refine ⟨h1, ?_,
    ⟨" are selected to " ++
        ((riskNarratives risk).getD "deliver a balanced mix of growth and stability."),
      by rw [h1, String.append_assoc]⟩, rfl⟩
  unfold riskNarratives
  split_ifs <;> simp

/-- Claim C9. The single-mode item explanation equals its specification:
the 5-year return fragment is preferred over the 3-year one (at most one
of the two appears), then one labeled fragment per extra metric is
appended in the fixed order yield, expense ratio, consistency,
volatility, duration, beta — each only when its value is numeric — all
joined with the bullet separator; when no fragment applies the
explanation is `undefined`, not an empty string. The concrete conjuncts
show the 5-year preference, the `undefined` empty case, the exclusion of
a non-numeric metric, and the fixed ordering with the bullet join. -/
theorem buildSingleItemExplanation_spec (item : JSVal) :
    buildSingleItemExplanation item = singleItemExplanationSpec item ∧
    buildSingleItemExplanation
        (.obj [("5y_return", .num (.fin 12)), ("3y_return", .num (.fin 10))]) =
      some "5Y CAGR 12%" ∧
    buildSingleItemExplanation (.obj []) = none ∧
    buildSingleItemExplanation (.obj [("extra_metrics", .obj [("yield", .str "3")])]) = none ∧
    buildSingleItemExplanation
        (.obj [("extra_metrics", .obj [("beta", .num (.fin 1)), ("yield", .num (.fin 5))])]) =
      some "Yield 5% • Beta 1" := by
  refine ⟨?_, rfl, rfl, rfl, rfl⟩
  unfold buildSingleItemExplanation singleItemExplanationSpec
  simp only [singleExtraMetricOrder, filterMap_cons_toList, List.filterMap_nil, List.append_nil]
  have frag : ∀ (extras : JSVal) (k pre suf : String),
      (numericFragment extras (k, pre, suf)).toList =
        (match getProp extras k with
         | .num n => [pre ++ jsNumToString n ++ suf]
         | _ => []) := by
    intro extras k pre suf
    cases h : getProp extras k <;> simp [numericFragment, h]
  simp only [frag, List.append_assoc, String.append_empty]

/-- Claim C10. The single-mode metric formatter is total and cannot
throw: `null` and `undefined` are rendered as the literal `NA` before any
type dispatch (so the object branch, the only one that enumerates
entries, never sees `null`); numbers are `en-IN` locale-formatted with at
most two fraction digits; objects are flattened to `key: value` pairs
joined by `, `; and strings and booleans are returned unchanged. The
concrete conjunct shows grouping and the two rounded fraction digits on
`1234.56`. -/
theorem formatSingleMetricValue_total_dispatch :
    formatSingleMetricValue .null = .str "NA" ∧
    formatSingleMetricValue .undef = .str "NA" ∧
    (∀ n : JSNum, formatSingleMetricValue (.num n) = .str (formatEnINMax2 n)) ∧
    (∀ q : ℚ, ∃ ds : List Char, ds.length ≤ 2 ∧
      formatEnINMax2 (.fin q) =
        (if roundHundredths q < 0 then "-" else "") ++
        indianGroup (Nat.repr ((roundHundredths q).natAbs / 100)) ++
        (if ds.isEmpty then "" else "." ++ String.mk ds)) ∧
    (∀ fields : List (String × JSVal),
      formatSingleMetricValue (.obj fields) =
        .str (String.intercalate ", "
          (fields.map (fun kv => kv.1 ++ ": " ++ jsValToString kv.2)))) ∧
    (∀ s : String, formatSingleMetricValue (.str s) = .str s) ∧
    (∀ b : Bool, formatSingleMetricValue (.bool b) = .bool b) ∧
    formatSingleMetricValue (.num (.fin sampleMetric)) = .str "1,234.56" := by
  refine ⟨rfl, rfl, fun n => rfl, ?_, fun fields => rfl, fun s => rfl, fun b => rfl, rfl⟩
  intro q
  exact ⟨enINFracDigits ((roundHundredths q).natAbs % 100),
    enINFracDigits_length_le_two _, rfl⟩
